import Mathlib

/-!
Shallow embedding of the form-studio backend (src/backend/server.py,
src/backend/models.py, src/backend/database.py): the template registry,
version store, validation engine, generation orchestrator and submission
ledger, together with theorems settling the specification claims.

Python dict/JSON values are modelled by `Value` (with `Value.none` standing
for Python `None`, which is also what `dict.get` returns for a missing key).
The external renderer (a subprocess call to `generator.js`) and the regex
matcher (`re.match`) are abstract function parameters. Database rows are
lists; `uuid4` id generation is modelled by a freshness counter on the
database state.
-/

/-- A Python/JSON value as it appears in request payloads and options.
`Value.none` is Python `None`. -/
inductive Value where
  | none : Value
  | str (s : String) : Value
  | bool (b : Bool) : Value
  | int (n : Int) : Value
  | list (xs : List Value) : Value
  | obj (fields : List (String × Value)) : Value
deriving Repr

/-- `d.get(k)` on a Python dict: the first binding of `k`, else `None`. -/
def objGet (fields : List (String × Value)) (k : String) : Value :=
  match fields.find? (fun p => p.1 == k) with
  | some p => p.2
  | Option.none => Value.none

/-- Python truthiness (`if value:`) for the values we model: `None`, `False`,
`0`, the empty string and empty containers are falsy. -/
def truthy : Value → Bool
  | Value.none => false
  | Value.str s => !s.isEmpty
  | Value.bool b => b
  | Value.int n => n != 0
  | Value.list xs => !xs.isEmpty
  | Value.obj fs => !fs.isEmpty

/-- `value is None`. -/
def pyIsNone : Value → Bool
  | Value.none => true
  | _ => false

/-- Python `value == ""`: true exactly for the empty string. -/
def pyEqEmptyStr : Value → Bool
  | Value.str s => s.isEmpty
  | _ => false

mutual
/-- Python `repr` of a value (strings quoted), as used inside `str` of a
container; escape sequences inside strings are not modelled. -/
def pyRepr : Value → String
  | Value.none => "None"
  | Value.str s => "\x27" ++ s ++ "\x27"
  | Value.bool true => "True"
  | Value.bool false => "False"
  | Value.int n => toString n
  | Value.list xs => "[" ++ pyReprList xs ++ "]"
  | Value.obj fs => "\x7b" ++ pyReprObj fs ++ "\x7d"

/-- Comma-separated `repr`s of the elements of a Python list. -/
def pyReprList : List Value → String
  | [] => ""
  | [x] => pyRepr x
  | x :: xs => pyRepr x ++ ", " ++ pyReprList xs

/-- Comma-separated `repr`s of the entries of a Python dict. -/
def pyReprObj : List (String × Value) → String
  | [] => ""
  | [(k, v)] => "\x27" ++ k ++ "\x27: " ++ pyRepr v
  | (k, v) :: fs => "\x27" ++ k ++ "\x27: " ++ pyRepr v ++ ", " ++ pyReprObj fs
end

/-- Python `str(value)`: a string is itself, anything else its `repr`
(`str(True) = "True"`, `str(0) = "0"`, ...). -/
def pyStr : Value → String
  | Value.str s => s
  | v => pyRepr v

/-- The characters Python `str.strip()` removes. -/
def isPySpace (c : Char) : Bool :=
  c = Char.ofNat 32 || c = Char.ofNat 9 || c = Char.ofNat 10 ||
  c = Char.ofNat 13 || c = Char.ofNat 11 || c = Char.ofNat 12

/-- Python `s.strip()`: drop leading and trailing whitespace. -/
def pyStrip (s : String) : String :=
  String.mk (((s.toList.dropWhile isPySpace).reverse.dropWhile isPySpace).reverse)

/-- Split a character list at every occurrence of `sep`, keeping empty
groups, as Python `str.split(sep)` does for a one-character separator. -/
def splitOnCharAux (sep : Char) : List Char → List (List Char)
  | [] => [[]]
  | c :: rest =>
    if c = sep then [] :: splitOnCharAux sep rest
    else
      match splitOnCharAux sep rest with
      | [] => [[c]]
      | g :: gs => (c :: g) :: gs

/-- Python `path.split('.')` (so `"" → [""]`, `"a.b" → ["a","b"]`). -/
def pySplitDot (s : String) : List String :=
  (splitOnCharAux (Char.ofNat 46) s.toList).map String.mk

/-- The loop body of `get_nested_value` (server.py:300-304): step through the
remaining path segments; a missing key or a non-dict node yields `None`. -/
def getNestedGo : List String → Value → Value
  | [], v => v
  | k :: ks, v =>
    match v with
    | Value.obj fields => getNestedGo ks (objGet fields k)
    | _ => Value.none

/-- `get_nested_value(obj, path)` (server.py:298-305): split `path` on dots
and walk `obj`. -/
def get_nested_value (obj : Value) (path : String) : Value :=
  getNestedGo (pySplitDot path) obj

/-- Version lifecycle states (database.py:15-18). -/
inductive VersionStatus where
  | DRAFT
  | PUBLISHED
  | ARCHIVED
deriving Repr, DecidableEq

/-- Field kinds (models.py:11-16). -/
inductive FieldType where
  | TEXT
  | CHECKBOX
  | IMAGE
  | DATE
  | SIGNATURE_ANCHOR
deriving Repr, DecidableEq

/-- Placement rectangle (models.py:18-22); coordinates modelled as rationals. -/
structure FieldRect where
  x : Rat
  y : Rat
  w : Rat
  h : Rat
deriving Repr, DecidableEq

/-- Field styling (models.py:24-29). -/
structure FieldStyle where
  fontFamily : String := "Helvetica"
  fontSize : Nat := 11
  alignment : String := "LEFT"
  color : String := "#000000"
  tickChar : Option String := some "✓"
deriving Repr, DecidableEq

/-- Field validation descriptor (models.py:31-35). -/
structure FieldValidation where
  required : Bool := false
  regex : Option String := Option.none
  maxLen : Option Nat := Option.none
  charSpacing : Option Rat := Option.none
deriving Repr, DecidableEq

/-- One field schema entry (models.py:37-44). -/
structure FieldSchema where
  id : String
  key : String
  type : FieldType
  pageIndex : Nat
  rect : FieldRect
  style : FieldStyle := {}
  validation : FieldValidation := {}
deriving Repr, DecidableEq

/-- A validation violation; each constructor stands for the corresponding
message appended at server.py:205/210/214:
`requiredMissing k` for "Field k is required but missing",
`patternMismatch k` for "Field k does not match the required format",
`maxLengthExceeded k m` for "Field k exceeds maximum length of m". -/
inductive VError where
  | requiredMissing (key : String)
  | patternMismatch (key : String)
  | maxLengthExceeded (key : String) (limit : Nat)
deriving Repr, DecidableEq

/-- One iteration of the validation loop (server.py:200-214) for field `f`:
resolve the value by dotted key, then the required / regex / maxLen checks in
that order. `rmatch pat s` abstracts `re.match(pat, s)` (anchored at position
0). Note the Python truthiness guards: the regex and maxLen checks run only
when the value is truthy and the setting itself is truthy (a `None` or empty
regex, or a `None` or zero maxLen, disables the check). -/
def checkField (rmatch : String → String → Bool) (payload : Value)
    (f : FieldSchema) : List VError :=
  let value := get_nested_value payload f.key
  let errs :=
    if f.validation.required && (pyIsNone value || pyEqEmptyStr value) then
      [VError.requiredMissing f.key]
    else []
  let errs := errs ++
    (match f.validation.regex with
     | some r =>
       if truthy value && !r.isEmpty && !(rmatch r (pyStr value)) then
         [VError.patternMismatch f.key]
       else []
     | Option.none => [])
  errs ++
    (match f.validation.maxLen with
     | some m =>
       if truthy value && (m != 0) && decide ((pyStr value).length > m) then
         [VError.maxLengthExceeded f.key m]
       else []
     | Option.none => [])

/-- The accumulation loop of server.py:199-214: errors from every field, in
schema order, collected into one list. -/
def validate (rmatch : String → String → Bool)
    (fieldSchema : List FieldSchema) (payload : Value) : List VError :=
  fieldSchema.foldl (fun errors f => errors ++ checkField rmatch payload f) []

/-- Template row (database.py:20-28); timestamps omitted. -/
structure Template where
  id : String
  name : String
  key : String
  active_version_id : Option String
deriving Repr, DecidableEq

/-- Template-version row (database.py:30-40). -/
structure Version where
  id : String
  template_id : String
  version_number : Nat
  file_url : String
  dimensions : List (String × Rat)
  field_schema : List FieldSchema
  status : VersionStatus
deriving Repr, DecidableEq

/-- Submission row (database.py:42-51). -/
structure Submission where
  id : String
  template_id : String
  version_id : String
  payload : Value
  output_url : Option String
  status : String
deriving Repr

/-- The persistent state: the three relations plus a freshness counter
standing in for `uuid4` id generation. -/
structure DB where
  templates : List Template
  versions : List Version
  submissions : List Submission
  nextId : Nat
deriving Repr

/-- A fresh row id; distinct counters give distinct ids. -/
def freshId (n : Nat) : String :=
  "uuid-" ++ toString n

/-- `select(Template).where(Template.id == id)` + `scalar_one_or_none`. -/
def findTemplate (db : DB) (id : String) : Option Template :=
  db.templates.find? (fun t => t.id == id)

/-- `select(Template).where(Template.key == key)` + `scalar_one_or_none`. -/
def findTemplateByKey (db : DB) (key : String) : Option Template :=
  db.templates.find? (fun t => t.key == key)

/-- `select(TemplateVersion).where(TemplateVersion.id == id)` +
`scalar_one_or_none`. -/
def findVersion (db : DB) (id : String) : Option Version :=
  db.versions.find? (fun v => v.id == id)

/-- `select(Submission).where(Submission.id == id)` + `scalar_one_or_none`. -/
def findSubmission (db : DB) (id : String) : Option Submission :=
  db.submissions.find? (fun s => s.id == id)

/-- Request body of POST /versions (models.py:58-62). -/
structure VersionCreate where
  template_id : String
  file_url : String
  dimensions : List (String × Rat)
  field_schema : List FieldSchema
deriving Repr

/-- Outcome of `create_version`: success, HTTP 404, or the unhandled
`MultipleResultsFound` exception that `scalar_one_or_none` raises when the
version-number query returns more than one row. -/
inductive CreateVersionResult where
  | ok (v : Version)
  | templateNotFound
  | multipleResultsFound
deriving Repr

/-- `create_version` (server.py:74-101): look up the template, run
`select(version_number).where(template_id == ...)` through
`scalar_one_or_none` (which demands at most one row), compute
`(last_version or 0) + 1`, and insert the new row with status DRAFT. -/
def create_version (db : DB) (req : VersionCreate) : DB × CreateVersionResult :=
  match findTemplate db req.template_id with
  | Option.none => (db, CreateVersionResult.templateNotFound)
  | some _ =>
    let nums := (db.versions.filter (fun v => v.template_id == req.template_id)).map
      (fun v => v.version_number)
    match nums with
    | [] =>
      let v : Version :=
        { id := freshId db.nextId, template_id := req.template_id,
          version_number := 0 + 1, file_url := req.file_url,
          dimensions := req.dimensions, field_schema := req.field_schema,
          status := VersionStatus.DRAFT }
      ({ db with versions := db.versions ++ [v], nextId := db.nextId + 1 },
       CreateVersionResult.ok v)
    | [n] =>
      let v : Version :=
        { id := freshId db.nextId, template_id := req.template_id,
          version_number := (if n == 0 then 0 else n) + 1, file_url := req.file_url,
          dimensions := req.dimensions, field_schema := req.field_schema,
          status := VersionStatus.DRAFT }
      ({ db with versions := db.versions ++ [v], nextId := db.nextId + 1 },
       CreateVersionResult.ok v)
    | _ => (db, CreateVersionResult.multipleResultsFound)

/-- Request body of PATCH /versions (models.py:64-66); `status = Option.none`
models both an omitted status and Python-falsy status values. -/
structure VersionUpdate where
  field_schema : List FieldSchema
  status : Option VersionStatus
deriving Repr

/-- Outcome of `update_version`. -/
inductive UpdateVersionResult where
  | ok (v : Version)
  | versionNotFound
deriving Repr, DecidableEq

/-- `update_version` (server.py:121-142): replace the field schema wholesale;
if a status is supplied, write it, and if that status is PUBLISHED, point the
owning template's `active_version_id` at this version. -/
def update_version (db : DB) (version_id : String) (upd : VersionUpdate) :
    DB × UpdateVersionResult :=
  match findVersion db version_id with
  | Option.none => (db, UpdateVersionResult.versionNotFound)
  | some version =>
    let version1 := { version with field_schema := upd.field_schema }
    let version2 :=
      match upd.status with
      | some s => { version1 with status := s }
      | Option.none => version1
    let versions := db.versions.map (fun v => if v.id == version_id then version2 else v)
    let templates :=
      match upd.status with
      | some VersionStatus.PUBLISHED =>
        db.templates.map (fun t =>
          if t.id == version.template_id then
            { t with active_version_id := some version_id }
          else t)
      | _ => db.templates
    ({ db with versions := versions, templates := templates },
     UpdateVersionResult.ok version2)

/-- Request body of POST /generate (models.py:78-82); `version` is the raw
string selector ("latest" or an explicit version id). -/
structure GenerateRequest where
  template_key : String
  version : String
  payload : Value
  options : List (String × Value)
deriving Repr

/-- The `input_data` handed to the external renderer (server.py:221-226 and
273-278). -/
structure RenderInput where
  fileUrl : String
  fieldSchema : List FieldSchema
  payload : Value
  options : List (String × Value)
deriving Repr

/-- Outcome of one renderer subprocess run: stdout on exit code 0, stderr on
a non-zero exit code, or hitting the 30-second timeout. -/
inductive RenderResult where
  | success (stdout : String)
  | failure (stderr : String)
  | timeout
deriving Repr

/-- Response body of POST /generate (models.py:84-87); `url` is never set by
the reference code and is omitted. -/
structure GenerateResponse where
  pdf_data : Option String
  submission_id : String
deriving Repr, DecidableEq

/-- Outcome of `generate_pdf`: the HTTP 200 response or one of the failure
responses (404 / 400 / 400 / 500 / 500 in order of the constructors below). -/
inductive GenerateOutcome where
  | ok (resp : GenerateResponse)
  | templateNotFound
  | noPublishedVersion
  | versionNotFound
  | validationFailed (errors : List VError)
  | renderFailed (stderr : String)
  | renderTimeout
deriving Repr

/-- True exactly on the success outcome. -/
def GenerateOutcome.isOk : GenerateOutcome → Bool
  | GenerateOutcome.ok _ => true
  | _ => false

/-- `request.options.get("output") == "base64"` (server.py:252). -/
def isBase64Output (options : List (String × Value)) : Bool :=
  match objGet options "output" with
  | Value.str s => s == "base64"
  | _ => false

/-- Version selection (server.py:186-191): the selector "latest" follows the
template's `active_version_id` (absent when the pointer is unset); any other
selector is taken as an explicit version id. -/
def resolveSelector (template : Template) (version : String) : Option String :=
  if version == "latest" then template.active_version_id
  else some version

/-- `generate_pdf` (server.py:177-260): resolve the template by key, resolve
the version ("latest" follows `active_version_id`, anything else is an
explicit id), validate the payload against the version's field schema,
delegate to the renderer, and only on renderer success append a completed
Submission and answer with its id (plus the inline output when
`options.output == "base64"`). `rmatch` abstracts `re.match`, `render` the
subprocess call. -/
def generate_pdf (rmatch : String → String → Bool)
    (render : RenderInput → RenderResult) (db : DB) (req : GenerateRequest) :
    DB × GenerateOutcome :=
  match findTemplateByKey db req.template_key with
  | Option.none => (db, GenerateOutcome.templateNotFound)
  | some template =>
    match resolveSelector template req.version with
    | Option.none => (db, GenerateOutcome.noPublishedVersion)
    | some version_id =>
      match findVersion db version_id with
      | Option.none => (db, GenerateOutcome.versionNotFound)
      | some version =>
        if (validate rmatch version.field_schema req.payload).isEmpty then
          match render { fileUrl := version.file_url,
                         fieldSchema := version.field_schema,
                         payload := req.payload, options := req.options } with
          | RenderResult.failure stderr => (db, GenerateOutcome.renderFailed stderr)
          | RenderResult.timeout => (db, GenerateOutcome.renderTimeout)
          | RenderResult.success stdout =>
            ({ db with
               submissions := db.submissions ++
                 [{ id := freshId db.nextId, template_id := template.id,
                    version_id := version.id, payload := req.payload,
                    output_url := Option.none, status := "completed" }],
               nextId := db.nextId + 1 },
             GenerateOutcome.ok
               { pdf_data := if isBase64Output req.options then
                               some (pyStrip stdout)
                             else Option.none,
                 submission_id := freshId db.nextId })
        else (db, GenerateOutcome.validationFailed
               (validate rmatch version.field_schema req.payload))

/-- The index of a character in the standard base64 alphabet. -/
def b64Index (c : Char) : Option Nat :=
  if 65 ≤ c.toNat ∧ c.toNat ≤ 90 then some (c.toNat - 65)
  else if 97 ≤ c.toNat ∧ c.toNat ≤ 122 then some (c.toNat - 97 + 26)
  else if 48 ≤ c.toNat ∧ c.toNat ≤ 57 then some (c.toNat - 48 + 52)
  else if c = Char.ofNat 43 then some 62
  else if c = Char.ofNat 47 then some 63
  else Option.none

/-- Decode base64 quads into bytes; `=` padding only at the very end.
Models `base64.b64decode` on well-formed input; `Option.none` is the
`binascii.Error` it raises otherwise. -/
def b64DecodeQuads : List Char → Option (List Nat)
  | [] => some []
  | c1 :: c2 :: c3 :: c4 :: rest =>
    match b64Index c1, b64Index c2 with
    | some i1, some i2 =>
      if c3 = Char.ofNat 61 then
        if c4 = Char.ofNat 61 ∧ rest = [] then
          some [(i1 * 4 + i2 / 16) % 256]
        else Option.none
      else
        match b64Index c3 with
        | some i3 =>
          if c4 = Char.ofNat 61 then
            if rest = [] then
              some [(i1 * 4 + i2 / 16) % 256, (i2 % 16 * 16 + i3 / 4) % 256]
            else Option.none
          else
            match b64Index c4, b64DecodeQuads rest with
            | some i4, some bs =>
              some ((i1 * 4 + i2 / 16) % 256 :: (i2 % 16 * 16 + i3 / 4) % 256 ::
                    (i3 % 4 * 64 + i4) % 256 :: bs)
            | _, _ => Option.none
        | Option.none => Option.none
    | _, _ => Option.none
  | _ => Option.none

/-- `base64.b64decode(s)`: characters outside the alphabet are discarded
first (the default `validate=False` behaviour), then quads are decoded. -/
def b64decode (s : String) : Option (List Nat) :=
  b64DecodeQuads (s.toList.filter
    (fun c => (b64Index c).isSome || c = Char.ofNat 61))

/-- The forced renderer options of the download path (server.py:277):
`{"flatten": True, "output": "base64"}`. -/
def downloadOptions : List (String × Value) :=
  [("flatten", Value.bool true), ("output", Value.str "base64")]

/-- Outcome of `download_pdf`: the PDF bytes, the 404 for a missing
submission, the 500 for a failed render, or an unhandled exception
(`noneTypeCrash` is the AttributeError from `version.file_url` when the
version lookup returned `None`; `timeoutCrash` the uncaught
`subprocess.TimeoutExpired`; `decodeCrash` the uncaught `binascii.Error`). -/
inductive DownloadOutcome where
  | ok (content : List Nat)
  | submissionNotFound
  | renderFailed
  | timeoutCrash
  | noneTypeCrash
  | decodeCrash
deriving Repr, DecidableEq

/-- `download_pdf` (server.py:262-296): look up the submission, look up its
frozen version (with no missing-version check before dereferencing it),
re-invoke the renderer on the frozen file_url / field schema / payload with
the forced options, and return the base64-decoded bytes. No validation is
run and no row is written. -/
def download_pdf (render : RenderInput → RenderResult) (db : DB)
    (submission_id : String) : DB × DownloadOutcome :=
  match findSubmission db submission_id with
  | Option.none => (db, DownloadOutcome.submissionNotFound)
  | some submission =>
    match findVersion db submission.version_id with
    | Option.none => (db, DownloadOutcome.noneTypeCrash)
    | some version =>
      match render { fileUrl := version.file_url,
                     fieldSchema := version.field_schema,
                     payload := submission.payload,
                     options := downloadOptions } with
      | RenderResult.timeout => (db, DownloadOutcome.timeoutCrash)
      | RenderResult.failure _ => (db, DownloadOutcome.renderFailed)
      | RenderResult.success stdout =>
        match b64decode (pyStrip stdout) with
        | some bytes => (db, DownloadOutcome.ok bytes)
        | Option.none => (db, DownloadOutcome.decodeCrash)

/-! Concrete states used by the closed theorems below. -/

/-- A required TEXT field bound to the dotted key "client.name". -/
def exReqField : FieldSchema :=
  { id := "f1", key := "client.name", type := FieldType.TEXT, pageIndex := 0,
    rect := { x := 0, y := 0, w := 0, h := 0 },
    validation := { required := true } }

/-- A second required TEXT field bound to the dotted key "client.email". -/
def exReqField2 : FieldSchema :=
  { id := "f9", key := "client.email", type := FieldType.TEXT, pageIndex := 0,
    rect := { x := 0, y := 0, w := 0, h := 0 },
    validation := { required := true } }

/-- A field whose regex and maxLen are set (and whose key is "x"). -/
def exPatternField : FieldSchema :=
  { id := "f2", key := "x", type := FieldType.TEXT, pageIndex := 0,
    rect := { x := 0, y := 0, w := 0, h := 0 },
    validation := { required := false, regex := some "Z", maxLen := some 1 } }

/-- A matcher that never matches (consistent with `re.match("Z", "False")`). -/
def rmatchNever : String → String → Bool := fun _ _ => false

/-- A matcher that always matches. -/
def rmatchAlways : String → String → Bool := fun _ _ => true

/-- A published version of template "t1" carrying the required field. -/
def exVersion : Version :=
  { id := "v1", template_id := "t1", version_number := 1,
    file_url := "/kyc.pdf", dimensions := [], field_schema := [exReqField],
    status := VersionStatus.PUBLISHED }

/-- Template "t1" with key "kyc" and active version "v1". -/
def exTemplate : Template :=
  { id := "t1", name := "KYC", key := "kyc", active_version_id := some "v1" }

/-- A database with one template whose active version is "v1". -/
def exDB : DB :=
  { templates := [exTemplate], versions := [exVersion], submissions := [],
    nextId := 0 }

/-- The empty database. -/
def emptyDB : DB :=
  { templates := [], versions := [], submissions := [], nextId := 0 }

/-- A renderer stub that always succeeds with base64 output "UERG" ("PDF"). -/
def renderOk : RenderInput → RenderResult := fun _ => RenderResult.success "UERG"

/-- A generate request for template "kyc", selector "latest", a payload that
satisfies the required field, and inline base64 output requested. -/
def exGenReq : GenerateRequest :=
  { template_key := "kyc", version := "latest",
    payload := Value.obj [("client", Value.obj [("name", Value.str "Jane")])],
    options := [("output", Value.str "base64")] }

/-- A generate request whose payload is missing the required field. -/
def exGenReqBad : GenerateRequest :=
  { template_key := "kyc", version := "latest",
    payload := Value.obj [("client", Value.obj [])],
    options := [("output", Value.str "base64")] }

/-- The database after the successful generate of `exGenReq`. -/
def exDBAfter : DB := (generate_pdf rmatchAlways renderOk exDB exGenReq).1

/-- The response of the successful generate of `exGenReq`. -/
def exResp : GenerateResponse :=
  { pdf_data := some "UERG", submission_id := "uuid-0" }

/-- C1 scenario: a template with no versions yet. -/
def tmplC1 : Template :=
  { id := "t1", name := "T", key := "kyc1", active_version_id := Option.none }

/-- C1 scenario: database holding only `tmplC1`. -/
def dbC1 : DB :=
  { templates := [tmplC1], versions := [], submissions := [], nextId := 0 }

/-- C1 scenario: the version-creation request, reused for each create. -/
def reqC1 : VersionCreate :=
  { template_id := "t1", file_url := "/f.pdf", dimensions := [],
    field_schema := [] }

/-- C1 scenario: state after the first create. -/
def dbC1a : DB := (create_version dbC1 reqC1).1

/-- C1 scenario: state after the second create. -/
def dbC1b : DB := (create_version dbC1a reqC1).1

/-- C5 scenario: version "v1" of "t1", already PUBLISHED. -/
def v1C5 : Version :=
  { id := "v1", template_id := "t1", version_number := 1,
    file_url := "/a.pdf", dimensions := [], field_schema := [],
    status := VersionStatus.PUBLISHED }

/-- C5 scenario: version "v2" of "t1", also PUBLISHED. -/
def v2C5 : Version :=
  { id := "v2", template_id := "t1", version_number := 2,
    file_url := "/b.pdf", dimensions := [], field_schema := [],
    status := VersionStatus.PUBLISHED }

/-- C5 scenario: the active pointer of "t1" currently targets "v2". -/
def tmplC5 : Template :=
  { id := "t1", name := "T", key := "k5", active_version_id := some "v2" }

/-- C5 scenario: the assembled database. -/
def dbC5 : DB :=
  { templates := [tmplC5], versions := [v1C5, v2C5], submissions := [],
    nextId := 0 }

/-- C9 scenario: the frozen version "v1" a submission was generated from. -/
def v1C9 : Version :=
  { id := "v1", template_id := "t1", version_number := 1,
    file_url := "/kyc.pdf", dimensions := [], field_schema := [exReqField],
    status := VersionStatus.PUBLISHED }

/-- C9 scenario: a newer draft version "v2" with a different source file. -/
def v2C9 : Version :=
  { id := "v2", template_id := "t1", version_number := 2,
    file_url := "/new.pdf", dimensions := [], field_schema := [],
    status := VersionStatus.DRAFT }

/-- C9 scenario: the submission frozen against "v1". -/
def subC9 : Submission :=
  { id := "s1", template_id := "t1", version_id := "v1",
    payload := Value.obj [("client", Value.obj [("name", Value.str "Jane")])],
    output_url := Option.none, status := "completed" }

/-- C9 scenario: database before the newer version is published. -/
def dbC9base : DB :=
  { templates := [{ id := "t1", name := "KYC", key := "kyc",
                    active_version_id := some "v1" }],
    versions := [v1C9, v2C9], submissions := [subC9], nextId := 7 }

/-- C9 scenario: database after version "v2" is published (the active pointer
has moved on, the submission's frozen version has not). -/
def dbC9 : DB :=
  (update_version dbC9base "v2"
    { field_schema := [], status := some VersionStatus.PUBLISHED }).1

/-- C9 scenario: a renderer that only succeeds on the frozen file "/kyc.pdf",
answering the base64 of "ABC". -/
def renderC9 : RenderInput → RenderResult := fun input =>
  if input.fileUrl == "/kyc.pdf" then RenderResult.success "QUJD"
  else RenderResult.failure "wrong file"

/-- C10 scenario: a submission whose version row no longer exists. -/
def subC10 : Submission :=
  { id := "s1", template_id := "t1", version_id := "vGone",
    payload := Value.obj [], output_url := Option.none, status := "completed" }

/-- C10 scenario: database holding only the orphaned submission. -/
def dbC10 : DB :=
  { templates := [], versions := [], submissions := [subC10], nextId := 5 }

/-! Helper lemmas. -/

/-- `find?` commutes with a map that does not change which elements satisfy
the predicate. -/
theorem find?_map_of_pred_eq {α : Type} (g : α → α) (p : α → Bool)
    (hp : ∀ x, p (g x) = p x) :
    ∀ l : List α, (l.map g).find? p = (l.find? p).map g := by
  intro l
  induction l with
  | nil => rfl
  | cons a l ih =>
    simp only [List.map_cons, List.find?_cons]
    rw [hp a]
    cases h : p a
    · simpa using ih
    · rfl

/-- The validation fold with a non-empty accumulator is the accumulator
followed by the fold from the empty accumulator. -/
theorem validate_foldl_acc (rmatch : String → String → Bool) (payload : Value) :
    ∀ (l : List FieldSchema) (init : List VError),
      l.foldl (fun errors f => errors ++ checkField rmatch payload f) init
        = init ++ l.foldl (fun errors f => errors ++ checkField rmatch payload f) [] := by
  intro l
  induction l with
  | nil => intro init; simp
  | cons a l ih =>
    intro init
    simp only [List.foldl_cons]
    rw [ih (init ++ checkField rmatch payload a),
        ih ([] ++ checkField rmatch payload a)]
    simp

/-- Unfolding `validate` one field at a time. -/
theorem validate_cons (rmatch : String → String → Bool) (payload : Value)
    (f : FieldSchema) (l : List FieldSchema) :
    validate rmatch (f :: l) payload
      = checkField rmatch payload f ++ validate rmatch l payload := by
  unfold validate
  simp only [List.foldl_cons]
  rw [validate_foldl_acc rmatch payload l ([] ++ checkField rmatch payload f)]
  simp

/-- A required field whose resolved value is absent or the empty string
contributes exactly one `requiredMissing` error. -/
theorem checkField_required_absent (rmatch : String → String → Bool)
    (payload : Value) (f : FieldSchema)
    (hreq : f.validation.required = true)
    (hv : get_nested_value payload f.key = Value.none ∨
          get_nested_value payload f.key = Value.str "") :
    checkField rmatch payload f = [VError.requiredMissing f.key] := by
  unfold checkField
  rcases hv with hv | hv <;> rw [hv] <;>
    cases hr : f.validation.regex <;> cases hm : f.validation.maxLen <;>
      simp [hreq, pyIsNone, pyEqEmptyStr, truthy, String.isEmpty_iff]

/-- Publishing version `vid` rewrites the owning template's row to carry
`active_version_id = some vid`. -/
theorem findTemplate_after_publish (db : DB) (vid : String)
    (fs : List FieldSchema) (V : Version) (T : Template)
    (hV : findVersion db vid = some V)
    (hT : findTemplate db V.template_id = some T) :
    findTemplate (update_version db vid
        { field_schema := fs, status := some VersionStatus.PUBLISHED }).1
      V.template_id = some { T with active_version_id := some vid } := by
  have hT' : db.templates.find? (fun t => t.id == V.template_id) = some T := hT
  have hidT : T.id = V.template_id := by simpa using List.find?_some hT'
  unfold update_version
  rw [hV]
  show (db.templates.map (fun t => if t.id == V.template_id then
      { t with active_version_id := some vid } else t)).find?
      (fun t => t.id == V.template_id) = _
  rw [find?_map_of_pred_eq _ _ (by intro t; cases h : t.id == V.template_id <;> simp [h])
        db.templates, hT']
  simp [hidT]

/-- Updating version `vid` does not disturb the lookup of any other version. -/
theorem findVersion_after_update_other (db : DB) (vid oid : String)
    (upd : VersionUpdate) (V : Version)
    (hV : findVersion db vid = some V)
    (hne : oid ≠ vid) :
    findVersion (update_version db vid upd).1 oid = findVersion db oid := by
  have hV' : db.versions.find? (fun v => v.id == vid) = some V := hV
  have hid : V.id = vid := by simpa using List.find?_some hV'
  have key : ∀ W : Version, W.id = vid →
      (db.versions.map (fun v => if v.id == vid then W else v)).find?
        (fun v => v.id == oid) = db.versions.find? (fun v => v.id == oid) := by
    intro W hW
    rw [find?_map_of_pred_eq _ _ ?hp db.versions]
    case hp =>
      intro x
      cases h : x.id == vid
      · simp [h]
      · have hx : x.id = vid := by simpa using h
        simp [h, hW, hx]
    cases hfind : db.versions.find? (fun v => v.id == oid) with
    | none => rfl
    | some y =>
      have hy : y.id = oid := by simpa using List.find?_some hfind
      simp [hy, hne]
  unfold update_version
  rw [hV]
  cases hs : upd.status with
  | none => exact key { V with field_schema := upd.field_schema } hid
  | some s => exact key { V with field_schema := upd.field_schema, status := s } hid

/-- Publishing version `vid` rewrites exactly that version's row: new field
schema, status PUBLISHED. -/
theorem findVersion_after_publish_self (db : DB) (vid : String)
    (fs : List FieldSchema) (V : Version)
    (hV : findVersion db vid = some V) :
    findVersion (update_version db vid
        { field_schema := fs, status := some VersionStatus.PUBLISHED }).1 vid
      = some { V with field_schema := fs, status := VersionStatus.PUBLISHED } := by
  have hV' : db.versions.find? (fun v => v.id == vid) = some V := hV
  have hid : V.id = vid := by simpa using List.find?_some hV'
  unfold update_version
  rw [hV]
  show (db.versions.map (fun v => if v.id == vid then
      { V with field_schema := fs, status := VersionStatus.PUBLISHED } else v)).find?
      (fun v => v.id == vid) = _
  rw [find?_map_of_pred_eq _ _ (by intro x; cases h : x.id == vid <;> simp [h, hid])
        db.versions, hV']
  simp [hid]

/-! Claim theorems. -/

/-- C1: sequential version creation on one template assigns version_number 1
then 2 with status DRAFT, but the third create makes the version-number query
return two rows, so `scalar_one_or_none` raises `MultipleResultsFound`: the
request fails with an unhandled exception, nothing is inserted, and the
versions never reach 1..3 — contradicting the claim that N sequential creates
yield version numbers 1..N for every N. -/
theorem create_version_sequence_breaks_at_three :
    (create_version dbC1 reqC1).2
      = CreateVersionResult.ok
          { id := "uuid-0", template_id := "t1", version_number := 1,
            file_url := "/f.pdf", dimensions := [], field_schema := [],
            status := VersionStatus.DRAFT } ∧
    dbC1a.versions.map (fun v => (v.version_number, v.status))
      = [(1, VersionStatus.DRAFT)] ∧
    dbC1b.versions.map (fun v => (v.version_number, v.status))
      = [(1, VersionStatus.DRAFT), (2, VersionStatus.DRAFT)] ∧
    (create_version dbC1b reqC1).2 = CreateVersionResult.multipleResultsFound ∧
    (create_version dbC1b reqC1).1 = dbC1b :=
  ⟨rfl, rfl, rfl, rfl, rfl⟩

/-- C5 counterexample: version "v1" is already PUBLISHED and the active
pointer of template "t1" targets "v2"; an update of "v1" that supplies status
PUBLISHED — not a transition into PUBLISHED, since the status was already
PUBLISHED before the update — nevertheless moves the active pointer to "v1",
so the pointer is not left unchanged as the claim states. -/
theorem republish_already_published_moves_pointer :
    (findVersion dbC5 "v1").map (fun v => v.status)
      = some VersionStatus.PUBLISHED ∧
    (findTemplate dbC5 "t1").map (fun t => t.active_version_id)
      = some (some "v2") ∧
    (findTemplate (update_version dbC5 "v1"
        { field_schema := [], status := some VersionStatus.PUBLISHED }).1
        "t1").map (fun t => t.active_version_id) = some (some "v1") ∧
    (some "v1" : Option String) ≠ some "v2" :=
  ⟨rfl, rfl, rfl, by decide⟩

/-- C5 (amended): the active-pointer update is keyed on the supplied status
alone: if the supplied status is absent or differs from PUBLISHED, the
template relation is untouched; if the supplied status equals PUBLISHED and
the version exists, the owning template's active_version_id is set to the
version's id (leaving every other template field and every other template
unchanged) regardless of the version's previous status. -/
theorem active_pointer_update_iff_supplied_published (db : DB) (vid : String)
    (upd : VersionUpdate) :
    (upd.status ≠ some VersionStatus.PUBLISHED →
      (update_version db vid upd).1.templates = db.templates) ∧
    (∀ V : Version, upd.status = some VersionStatus.PUBLISHED →
      findVersion db vid = some V →
      (update_version db vid upd).1.templates
        = db.templates.map (fun t =>
            if t.id == V.template_id then
              { t with active_version_id := some vid }
            else t)) := by
  constructor
  · intro hns
    unfold update_version
    cases hV : findVersion db vid with
    | none => rfl
    | some V =>
      cases hs : upd.status with
      | none => rfl
      | some s =>
        cases s with
        | PUBLISHED => exact absurd hs hns
        | DRAFT => rfl
        | ARCHIVED => rfl
  · intro V hs hV
    unfold update_version
    rw [hV, hs]

/-- C5 witness: supplying status ARCHIVED leaves the template relation alone;
supplying status PUBLISHED for the already-published "v1" rewrites the
pointer of "t1" to "v1". -/
theorem active_pointer_update_witness :
    (update_version dbC5 "v1"
        { field_schema := [], status := some VersionStatus.ARCHIVED }).1.templates
      = dbC5.templates ∧
    (update_version dbC5 "v1"
        { field_schema := [], status := some VersionStatus.PUBLISHED }).1.templates
      = dbC5.templates.map (fun t =>
          if t.id == "t1" then { t with active_version_id := some "v1" } else t) :=
  ⟨(active_pointer_update_iff_supplied_published dbC5 "v1"
      { field_schema := [], status := some VersionStatus.ARCHIVED }).1 (by decide),
   (active_pointer_update_iff_supplied_published dbC5 "v1"
      { field_schema := [], status := some VersionStatus.PUBLISHED }).2 v1C5 rfl rfl⟩

/-- C10: when the submission exists but its frozen version id no longer
resolves, `download_pdf` dereferences the missing row before any check: for
every renderer the outcome is the unhandled `NoneType` attribute error
(`version.file_url` on `None`), not a not-found response. -/
theorem download_missing_version_unhandled
    (render : RenderInput → RenderResult) (db : DB) (sid : String)
    (sub : Submission)
    (hs : findSubmission db sid = some sub)
    (hv : findVersion db sub.version_id = Option.none) :
    download_pdf render db sid = (db, DownloadOutcome.noneTypeCrash) ∧
    (download_pdf render db sid).2 ≠ DownloadOutcome.submissionNotFound := by
  have hres : download_pdf render db sid = (db, DownloadOutcome.noneTypeCrash) := by
    unfold download_pdf
    simp only [hs, hv]
  exact ⟨hres, by rw [hres]; simp⟩

/-- C10 witness: the orphaned submission "s1" of `dbC10` (its version row
"vGone" is absent) makes download crash with the null dereference. -/
theorem download_missing_version_witness :
    download_pdf (fun _ => RenderResult.failure "boom") dbC10 "s1"
      = (dbC10, DownloadOutcome.noneTypeCrash) :=
  (download_missing_version_unhandled (fun _ => RenderResult.failure "boom")
    dbC10 "s1" subC10 rfl rfl).1

/-- C6: validation never short-circuits: it distributes over cons and append
(every schema entry contributes its violations, in schema order), and in
particular two required fields both missing from the payload yield exactly
two errors, one per field, in schema order. Being a pure function of its
arguments, the result is deterministic and order-stable. -/
theorem validate_accumulates_all_errors (rmatch : String → String → Bool)
    (payload : Value) :
    (∀ (f : FieldSchema) (l : List FieldSchema),
      validate rmatch (f :: l) payload
        = checkField rmatch payload f ++ validate rmatch l payload) ∧
    (∀ s1 s2 : List FieldSchema,
      validate rmatch (s1 ++ s2) payload
        = validate rmatch s1 payload ++ validate rmatch s2 payload) ∧
    (∀ f1 f2 : FieldSchema,
      f1.validation.required = true → f2.validation.required = true →
      get_nested_value payload f1.key = Value.none →
      get_nested_value payload f2.key = Value.none →
      validate rmatch [f1, f2] payload
        = [VError.requiredMissing f1.key, VError.requiredMissing f2.key]) := by
  refine ⟨validate_cons rmatch payload, ?_, ?_⟩
  · intro s1 s2
    induction s1 with
    | nil => simp [validate]
    | cons a l ih =>
      rw [List.cons_append, validate_cons, validate_cons, ih, List.append_assoc]
  · intro f1 f2 h1 h2 hv1 hv2
    rw [validate_cons, validate_cons,
        checkField_required_absent rmatch payload f1 h1 (Or.inl hv1),
        checkField_required_absent rmatch payload f2 h2 (Or.inl hv2)]
    simp [validate]

/-- C6 witness: a schema of two required fields against a payload missing
both yields exactly the two errors in schema order. -/
theorem validate_accumulates_witness :
    validate rmatchAlways [exReqField, exReqField2]
        (Value.obj [("client", Value.obj [])])
      = [VError.requiredMissing "client.name",
         VError.requiredMissing "client.email"] :=
  (validate_accumulates_all_errors rmatchAlways
    (Value.obj [("client", Value.obj [])])).2.2 exReqField exReqField2
    rfl rfl rfl rfl

/-- C7: value resolution walks the payload segment by segment — a non-keyed
node yields absent (`None`) with no error of its own — and a required field
whose resolved value is absent or the empty string contributes exactly one
requiredMissing error. Concretely, key "client.name" against
`{"client": {}}` resolves to absent and validates to exactly one error, and
against `{"client": {"name": "John"}}` validates to none. -/
theorem nested_resolution_required_semantics (rmatch : String → String → Bool) :
    (∀ (ks : List String) (v : Value), ks ≠ [] →
      (∀ fields, v ≠ Value.obj fields) → getNestedGo ks v = Value.none) ∧
    (∀ (payload : Value) (f : FieldSchema), f.validation.required = true →
      (get_nested_value payload f.key = Value.none ∨
       get_nested_value payload f.key = Value.str "") →
      checkField rmatch payload f = [VError.requiredMissing f.key]) ∧
    get_nested_value (Value.obj [("client", Value.obj [])]) "client.name"
      = Value.none ∧
    validate rmatch [exReqField] (Value.obj [("client", Value.obj [])])
      = [VError.requiredMissing "client.name"] ∧
    validate rmatch [exReqField]
      (Value.obj [("client", Value.obj [("name", Value.str "John")])]) = [] := by
  refine ⟨?_, checkField_required_absent rmatch, rfl, rfl, rfl⟩
  intro ks v hks hv
  cases ks with
  | nil => exact absurd rfl hks
  | cons k ks =>
    cases v with
    | obj fields => exact absurd rfl (hv fields)
    | none => rfl
    | str s => rfl
    | bool b => rfl
    | int n => rfl
    | list xs => rfl

/-- C7 witness: a scalar node with a pending segment resolves to absent, and
the required field against `{"client": {}}` produces exactly one error. -/
theorem nested_resolution_required_witness :
    getNestedGo ["a"] (Value.int 3) = Value.none ∧
    checkField rmatchAlways (Value.obj [("client", Value.obj [])]) exReqField
      = [VError.requiredMissing "client.name"] :=
  ⟨(nested_resolution_required_semantics rmatchAlways).1 ["a"] (Value.int 3)
      (by simp) (fun fields h => Value.noConfusion h),
   (nested_resolution_required_semantics rmatchAlways).2.1
      (Value.obj [("client", Value.obj [])]) exReqField rfl (Or.inl rfl)⟩

/-- C2 counterexample: the payload value at key "x" is present (it is the
boolean False, not None), the field sets both a regex the value's string
representation "False" does not match and a maxLen of 1 that its length 5
exceeds, yet the validation loop emits no error, because both checks are
guarded by Python truthiness (`if value and ...`) and False is falsy — so the
checks do not apply to every present value as claimed. -/
theorem falsy_value_skips_checks :
    get_nested_value (Value.obj [("x", Value.bool false)]) "x"
      = Value.bool false ∧
    pyIsNone (get_nested_value (Value.obj [("x", Value.bool false)]) "x")
      = false ∧
    exPatternField.validation.regex = some "Z" ∧
    rmatchNever "Z" (pyStr (Value.bool false)) = false ∧
    exPatternField.validation.maxLen = some 1 ∧
    (pyStr (Value.bool false)).length > 1 ∧
    validate rmatchNever [exPatternField] (Value.obj [("x", Value.bool false)])
      = [] :=
  ⟨rfl, rfl, rfl, rfl, rfl, by decide, rfl⟩

/-- C2 (amended): the regex and maxLen checks fire exactly for truthy
resolved values (so present-but-falsy values — False, 0, "", empty
containers — are skipped): a PatternMismatch error is emitted iff the value
is truthy, a non-empty regex is set and the matcher rejects the string
representation at position 0; a MaxLengthExceeded error is emitted iff the
value is truthy, that non-zero maxLen is set and the string representation's
length exceeds it. -/
theorem pattern_and_maxlen_require_truthy (rmatch : String → String → Bool)
    (payload : Value) (f : FieldSchema) :
    (VError.patternMismatch f.key ∈ checkField rmatch payload f ↔
      (truthy (get_nested_value payload f.key) = true ∧
       ∃ r, f.validation.regex = some r ∧ r.isEmpty = false ∧
            rmatch r (pyStr (get_nested_value payload f.key)) = false)) ∧
    (∀ m : Nat, VError.maxLengthExceeded f.key m ∈ checkField rmatch payload f ↔
      (truthy (get_nested_value payload f.key) = true ∧
       f.validation.maxLen = some m ∧ m ≠ 0 ∧
       m < (pyStr (get_nested_value payload f.key)).length)) := by
  have hmx : ∀ (A : Prop) (m0 m L : Nat),
      (((A ∧ ¬m0 = 0) ∧ m0 < L) ∧ m = m0 ↔ A ∧ m0 = m ∧ ¬m = 0 ∧ m < L) := by
    intro A m0 m L
    constructor
    · rintro ⟨⟨⟨a, b⟩, c⟩, d⟩
      subst d
      exact ⟨a, rfl, b, c⟩
    · rintro ⟨a, e, b, c⟩
      subst e
      exact ⟨⟨⟨a, b⟩, c⟩, rfl⟩
  unfold checkField
  cases hr : f.validation.regex with
  | none =>
    cases hm : f.validation.maxLen with
    | none => constructor <;> simp
    | some m0 =>
      constructor
      · simp
      · intro m
        simp
        exact hmx _ m0 m _
  | some r0 =>
    cases hm : f.validation.maxLen with
    | none =>
      constructor
      · simp [and_assoc]
      · intro m
        simp
    | some m0 =>
      constructor
      · simp [and_assoc]
      · intro m
        simp
        exact hmx _ m0 m _

/-- C2 witness: for the truthy value "abc" the amended rule does emit both a
pattern error and a length error for `exPatternField`. -/
theorem pattern_and_maxlen_truthy_witness :
    VError.patternMismatch "x"
      ∈ checkField rmatchNever (Value.obj [("x", Value.str "abc")])
          exPatternField ∧
    VError.maxLengthExceeded "x" 1
      ∈ checkField rmatchNever (Value.obj [("x", Value.str "abc")])
          exPatternField :=
  ⟨(pattern_and_maxlen_require_truthy rmatchNever
      (Value.obj [("x", Value.str "abc")]) exPatternField).1.mpr
      ⟨rfl, "Z", rfl, rfl, rfl⟩,
   ((pattern_and_maxlen_require_truthy rmatchNever
      (Value.obj [("x", Value.str "abc")]) exPatternField).2 1).mpr
      ⟨rfl, rfl, by decide, by decide⟩⟩

/-- C3: whenever generate does not return the success outcome — template key
unknown, "latest" with an unset active pointer, explicit version id unknown,
validation errors, renderer failure or timeout — the database (in particular
the submission ledger) is returned unchanged; and a validation failure
carries the full error list and is decided identically for every renderer,
so the renderer is never consulted. -/
theorem generate_failure_preserves_state (rmatch : String → String → Bool)
    (render : RenderInput → RenderResult) (db : DB) (req : GenerateRequest) :
    ((generate_pdf rmatch render db req).2.isOk = false →
      (generate_pdf rmatch render db req).1 = db) ∧
    (∀ (template : Template) (version_id : String) (version : Version),
      findTemplateByKey db req.template_key = some template →
      resolveSelector template req.version = some version_id →
      findVersion db version_id = some version →
      validate rmatch version.field_schema req.payload ≠ [] →
      ∀ render2 : RenderInput → RenderResult,
        generate_pdf rmatch render2 db req
          = (db, GenerateOutcome.validationFailed
              (validate rmatch version.field_schema req.payload))) := by
  constructor
  · intro h
    unfold generate_pdf at h ⊢
    cases hT : findTemplateByKey db req.template_key with
    | none => simp only [hT]
    | some template =>
      simp only [hT] at h ⊢
      cases hSel : resolveSelector template req.version with
      | none => simp only [hSel]
      | some version_id =>
        simp only [hSel] at h ⊢
        cases hV : findVersion db version_id with
        | none => simp only [hV]
        | some version =>
          simp only [hV] at h ⊢
          by_cases hE : (validate rmatch version.field_schema req.payload).isEmpty
            = true
          · rw [if_pos hE] at h ⊢
            cases hR : render { fileUrl := version.file_url, fieldSchema := version.field_schema, payload := req.payload, options := req.options } with
            | failure s => simp only [hR]
            | timeout => simp only [hR]
            | success stdout =>
              rw [hR] at h
              simp [GenerateOutcome.isOk] at h
          · rw [if_neg hE]
  · intro template version_id version hT hSel hV herr render2
    unfold generate_pdf
    simp only [hT, hSel, hV]
    rw [if_neg (by simpa [List.isEmpty_iff] using herr)]

/-- C3 witness: a generate against the empty database (template not found)
returns the state unchanged, and a generate whose payload misses the required
field fails with the full validation error list even under a renderer that
would only time out. -/
theorem generate_failure_preserves_state_witness :
    (generate_pdf rmatchAlways renderOk emptyDB exGenReq).1 = emptyDB ∧
    generate_pdf rmatchAlways (fun _ => RenderResult.timeout) exDB exGenReqBad
      = (exDB, GenerateOutcome.validationFailed
          [VError.requiredMissing "client.name"]) :=
  ⟨(generate_failure_preserves_state rmatchAlways renderOk emptyDB exGenReq).1
      rfl,
   (generate_failure_preserves_state rmatchAlways renderOk exDB exGenReqBad).2
      exTemplate "v1" exVersion rfl rfl rfl (by decide)
      (fun _ => RenderResult.timeout)⟩

/-- C4: publishing version v1 sets the owning template's active pointer to
v1; publishing a different version v2 of the same template afterwards leaves
v1's status PUBLISHED (no automatic demotion) while the active pointer — a
single field, so at most one target at a time — then points to v2. -/
theorem publish_sets_active_then_second_publish (db : DB) (v1id v2id : String)
    (V1 V2 : Version) (T : Template) (fs1 fs2 : List FieldSchema)
    (h1 : findVersion db v1id = some V1)
    (h2 : findVersion db v2id = some V2)
    (hsame : V2.template_id = V1.template_id)
    (hT : findTemplate db V1.template_id = some T)
    (hne : v1id ≠ v2id) :
    ((findTemplate (update_version db v1id
        { field_schema := fs1, status := some VersionStatus.PUBLISHED }).1
        V1.template_id).map (fun t => t.active_version_id)
      = some (some v1id)) ∧
    ((findVersion (update_version (update_version db v1id
        { field_schema := fs1, status := some VersionStatus.PUBLISHED }).1 v2id
        { field_schema := fs2, status := some VersionStatus.PUBLISHED }).1
        v1id).map (fun v => v.status) = some VersionStatus.PUBLISHED) ∧
    ((findTemplate (update_version (update_version db v1id
        { field_schema := fs1, status := some VersionStatus.PUBLISHED }).1 v2id
        { field_schema := fs2, status := some VersionStatus.PUBLISHED }).1
        V1.template_id).map (fun t => t.active_version_id)
      = some (some v2id)) := by
  have hA1 := findTemplate_after_publish db v1id fs1 V1 T h1 hT
  have hB1 : findVersion (update_version db v1id
      { field_schema := fs1, status := some VersionStatus.PUBLISHED }).1 v2id
      = some V2 := by
    rw [findVersion_after_update_other db v1id v2id _ V1 h1 (Ne.symm hne)]
    exact h2
  have hSelf1 := findVersion_after_publish_self db v1id fs1 V1 h1
  have hT1 : findTemplate (update_version db v1id
      { field_schema := fs1, status := some VersionStatus.PUBLISHED }).1
      V2.template_id = some { T with active_version_id := some v1id } := by
    rw [hsame]
    exact hA1
  have hA2 := findTemplate_after_publish _ v2id fs2 V2
      { T with active_version_id := some v1id } hB1 hT1
  have hB2 : findVersion (update_version (update_version db v1id
      { field_schema := fs1, status := some VersionStatus.PUBLISHED }).1 v2id
      { field_schema := fs2, status := some VersionStatus.PUBLISHED }).1 v1id
      = some { V1 with field_schema := fs1, status := VersionStatus.PUBLISHED } := by
    rw [findVersion_after_update_other _ v2id v1id _ V2 hB1 hne]
    exact hSelf1
  refine ⟨?_, ?_, ?_⟩
  · rw [hA1]
    rfl
  · rw [hB2]
    rfl
  · rw [← hsame, hA2]
    rfl

/-- C4 witness: in `dbC5`, publishing "v1" moves the pointer of "t1" to "v1";
then publishing "v2" leaves "v1" PUBLISHED and moves the pointer to "v2". -/
theorem publish_sets_active_witness :
    ((findTemplate (update_version dbC5 "v1"
        { field_schema := [], status := some VersionStatus.PUBLISHED }).1
        "t1").map (fun t => t.active_version_id) = some (some "v1")) ∧
    ((findVersion (update_version (update_version dbC5 "v1"
        { field_schema := [], status := some VersionStatus.PUBLISHED }).1 "v2"
        { field_schema := [], status := some VersionStatus.PUBLISHED }).1
        "v1").map (fun v => v.status) = some VersionStatus.PUBLISHED) ∧
    ((findTemplate (update_version (update_version dbC5 "v1"
        { field_schema := [], status := some VersionStatus.PUBLISHED }).1 "v2"
        { field_schema := [], status := some VersionStatus.PUBLISHED }).1
        "t1").map (fun t => t.active_version_id) = some (some "v2")) :=
  publish_sets_active_then_second_publish dbC5 "v1" "v2" v1C5 v2C5 tmplC5 [] []
    rfl rfl rfl rfl (by decide)

/-- C8: a successful generate appends exactly one submission — bound to the
resolved template and resolved version, carrying the original payload and
status "completed" — to an otherwise unchanged database, and returns that
submission's id together with the stripped renderer output inline exactly
when `options.output == "base64"` (otherwise pdf_data is omitted). -/
theorem generate_success_records_single_submission
    (rmatch : String → String → Bool) (render : RenderInput → RenderResult)
    (db db2 : DB) (req : GenerateRequest) (resp : GenerateResponse)
    (h : generate_pdf rmatch render db req = (db2, GenerateOutcome.ok resp)) :
    ∃ (template : Template) (version_id : String) (version : Version)
      (stdout : String),
      findTemplateByKey db req.template_key = some template ∧
      resolveSelector template req.version = some version_id ∧
      findVersion db version_id = some version ∧
      validate rmatch version.field_schema req.payload = [] ∧
      render { fileUrl := version.file_url, fieldSchema := version.field_schema,
               payload := req.payload, options := req.options }
        = RenderResult.success stdout ∧
      db2.submissions = db.submissions ++
        [{ id := freshId db.nextId, template_id := template.id,
           version_id := version.id, payload := req.payload,
           output_url := Option.none, status := "completed" }] ∧
      db2.templates = db.templates ∧
      db2.versions = db.versions ∧
      resp.submission_id = freshId db.nextId ∧
      resp.pdf_data = (if isBase64Output req.options then some (pyStrip stdout)
                       else Option.none) := by
  unfold generate_pdf at h
  cases hT : findTemplateByKey db req.template_key with
  | none => rw [hT] at h; simp at h
  | some template =>
    simp only [hT] at h
    cases hSel : resolveSelector template req.version with
    | none => simp [hSel] at h
    | some version_id =>
      simp only [hSel] at h
      cases hV : findVersion db version_id with
      | none => simp [hV] at h
      | some version =>
        simp only [hV] at h
        by_cases hE : (validate rmatch version.field_schema req.payload).isEmpty
          = true
        · rw [if_pos hE] at h
          cases hR : render { fileUrl := version.file_url, fieldSchema := version.field_schema, payload := req.payload, options := req.options } with
          | failure s => rw [hR] at h; simp at h
          | timeout => rw [hR] at h; simp at h
          | success stdout =>
            rw [hR] at h
            have hdb : ({ db with
                submissions := db.submissions ++
                  [{ id := freshId db.nextId, template_id := template.id,
                     version_id := version.id, payload := req.payload,
                     output_url := Option.none, status := "completed" }],
                nextId := db.nextId + 1 } : DB) = db2 := congrArg Prod.fst h
            have hout : GenerateOutcome.ok
                ({ pdf_data := if isBase64Output req.options then
                                 some (pyStrip stdout)
                               else Option.none,
                   submission_id := freshId db.nextId } : GenerateResponse)
                = GenerateOutcome.ok resp := congrArg Prod.snd h
            have hresp : ({ pdf_data := if isBase64Output req.options then
                                          some (pyStrip stdout)
                                        else Option.none,
                            submission_id := freshId db.nextId } :
                GenerateResponse) = resp := by
              injection hout
            subst hdb
            subst hresp
            exact ⟨template, version_id, version, stdout, rfl, hSel, hV,
              by simpa [List.isEmpty_iff] using hE, hR, rfl, rfl, rfl, rfl, rfl⟩
        · rw [if_neg hE] at h
          simp at h

/-- C8 witness: the successful generate of `exGenReq` against `exDB` appends
exactly the completed submission "uuid-0" and returns the inline output. -/
theorem generate_success_witness :
    ∃ (template : Template) (version_id : String) (version : Version)
      (stdout : String),
      findTemplateByKey exDB exGenReq.template_key = some template ∧
      resolveSelector template exGenReq.version = some version_id ∧
      findVersion exDB version_id = some version ∧
      validate rmatchAlways version.field_schema exGenReq.payload = [] ∧
      renderOk { fileUrl := version.file_url,
                 fieldSchema := version.field_schema,
                 payload := exGenReq.payload, options := exGenReq.options }
        = RenderResult.success stdout ∧
      exDBAfter.submissions = exDB.submissions ++
        [{ id := freshId exDB.nextId, template_id := template.id,
           version_id := version.id, payload := exGenReq.payload,
           output_url := Option.none, status := "completed" }] ∧
      exDBAfter.templates = exDB.templates ∧
      exDBAfter.versions = exDB.versions ∧
      exResp.submission_id = freshId exDB.nextId ∧
      exResp.pdf_data = (if isBase64Output exGenReq.options then
                           some (pyStrip stdout)
                         else Option.none) :=
  generate_success_records_single_submission rmatchAlways renderOk exDB
    exDBAfter exGenReq exResp rfl

/-- C9: download never mutates the database (first conjunct, for every state
and renderer — in particular the Submission itself is unchanged); and for an
existing submission whose frozen version resolves, it invokes the renderer
with exactly the frozen version's file_url and field schema, the stored
payload, and the forced options `{flatten: true, output: "base64"}`, then
returns the decoded bytes — no validation is involved at any point, and a
later publish of a newer version only changes the template pointer, not the
submission's frozen version_id, so the same frozen data is rendered. -/
theorem download_rerenders_frozen_version
    (render : RenderInput → RenderResult) (db : DB) (sid : String) :
    ((download_pdf render db sid).1 = db) ∧
    (∀ (sub : Submission) (version : Version) (stdout : String)
       (bytes : List Nat),
      findSubmission db sid = some sub →
      findVersion db sub.version_id = some version →
      render { fileUrl := version.file_url, fieldSchema := version.field_schema,
               payload := sub.payload, options := downloadOptions }
        = RenderResult.success stdout →
      b64decode (pyStrip stdout) = some bytes →
      download_pdf render db sid = (db, DownloadOutcome.ok bytes)) := by
  constructor
  · unfold download_pdf
    cases hs : findSubmission db sid with
    | none => rfl
    | some sub =>
      simp only [hs]
      cases hv : findVersion db sub.version_id with
      | none => rfl
      | some version =>
        simp only [hv]
        cases hr : render { fileUrl := version.file_url, fieldSchema := version.field_schema, payload := sub.payload, options := downloadOptions } with
        | timeout => rfl
        | failure s => rfl
        | success stdout =>
          simp only [hr]
          cases hb : b64decode (pyStrip stdout) with
          | none => rfl
          | some bytes => simp [hb]
  · intro sub version stdout bytes hs hv hr hb
    unfold download_pdf
    simp only [hs, hv, hr, hb]

/-- C9 witness: in `dbC9` the newer version "v2" has been published (the
active pointer now targets "v2"), yet downloading submission "s1" renders the
frozen version "v1" — the renderer stub only succeeds on "/kyc.pdf", v1's
file — and returns the decoded bytes of "QUJD" ("ABC") with the database
unchanged. -/
theorem download_frozen_witness :
    download_pdf renderC9 dbC9 "s1" = (dbC9, DownloadOutcome.ok [65, 66, 67]) ∧
    (findTemplate dbC9 "t1").map (fun t => t.active_version_id)
      = some (some "v2") :=
  ⟨(download_rerenders_frozen_version renderC9 dbC9 "s1").2 subC9 v1C9 "QUJD"
      [65, 66, 67] rfl rfl rfl rfl, rfl⟩
